import Mathlib

/-!
Verification of the Polymarket hedge-agent position/strategy engine and its
Flask API wrapper (`src/polymarket-agent/api.py`).

The repository's source tree contains only the API wrapper; the core
`Position` ledger and `TradingStrategy` engine (imported from `my_agent`)
are not present, so those operations are modelled from the specification
(each such definition carries a `Modelled from the spec:` doc comment).
All arithmetic is embedded over exact rationals (the spec's "plain
floating-point" values), so algebraic identities are stated exactly.
In this pure state-passing embedding a rejected operation returns only an
error value, so the caller's position is untouched by construction.
-/

namespace PolyAgent

/-- Side of a binary market position: YES or NO shares. -/
inductive Side where
  | yes
  | no
deriving DecidableEq

/-- Error kinds of the engine, from spec section 7: `InvalidInput`,
`InsufficientShares`, `PreconditionFailed`. -/
inductive PosError where
  | invalidInput
  | insufficientShares
  | preconditionFailed
deriving DecidableEq

/-- Modelled from the spec: the `Position` ledger (spec section 3) of the
missing `my_agent.position.Position` class: share counts per side,
cumulative invested/withdrawn capital, weighted-average cost per side, and
the entry probability (`none` until first entry). -/
structure Position where
  yes_shares : ℚ
  no_shares : ℚ
  total_invested : ℚ
  total_withdrawn : ℚ
  avg_cost_yes : ℚ
  avg_cost_no : ℚ
  entry_prob : Option ℚ
deriving DecidableEq

/-- The empty position: all zeros, `entry_prob = none` (spec section 3
lifecycle: "created empty"). -/
def Position.empty : Position :=
  { yes_shares := 0, no_shares := 0, total_invested := 0, total_withdrawn := 0,
    avg_cost_yes := 0, avg_cost_no := 0, entry_prob := none }

/-- Modelled from the spec: `openPosition(shares, price, side, entryProb)`
of the missing `Position` class (spec section 4.1): requires `shares > 0`
and `price` in `(0,1)` (else `InvalidInput`); increases the side's share
count, recomputes that side's weighted-average cost, increases
`totalInvested` by `shares * price`, and sets `entryProb` if unset. -/
def open_position (p : Position) (shares price : ℚ) (side : Side)
    (entryProb : ℚ) : Except PosError Position :=
  if shares ≤ 0 ∨ price ≤ 0 ∨ 1 ≤ price then
    .error .invalidInput
  else
    let p1 :=
      match side with
      | .yes =>
        { p with
          yes_shares := p.yes_shares + shares,
          avg_cost_yes :=
            (p.yes_shares * p.avg_cost_yes + shares * price) /
              (p.yes_shares + shares) }
      | .no =>
        { p with
          no_shares := p.no_shares + shares,
          avg_cost_no :=
            (p.no_shares * p.avg_cost_no + shares * price) /
              (p.no_shares + shares) }
    .ok { p1 with
          total_invested := p1.total_invested + shares * price,
          entry_prob := some (p1.entry_prob.getD entryProb) }

/-- Modelled from the spec: `recordSell(side, shares, price)` of the missing
`Position` class (spec section 4.1): requires `shares <= current shares of
that side` (else `InsufficientShares`); decreases that side's share count,
increases `totalWithdrawn` by `shares * price`, leaves average cost
untouched. -/
def record_sell (p : Position) (side : Side) (shares price : ℚ) :
    Except PosError Position :=
  match side with
  | .yes =>
    if shares ≤ p.yes_shares then
      .ok { p with
            yes_shares := p.yes_shares - shares,
            total_withdrawn := p.total_withdrawn + shares * price }
    else
      .error .insufficientShares
  | .no =>
    if shares ≤ p.no_shares then
      .ok { p with
            no_shares := p.no_shares - shares,
            total_withdrawn := p.total_withdrawn + shares * price }
    else
      .error .insufficientShares

/-- Modelled from the spec: `hasPosition()` of the missing `Position` class
(spec section 3): `yesShares > 0 OR noShares > 0`. -/
def has_position (p : Position) : Bool :=
  decide (0 < p.yes_shares) || decide (0 < p.no_shares)

/-- The `is_hedged` expression computed inline by the API
(`api.py` lines 69 and 145):
`position_manager.yes_shares > 0 and position_manager.no_shares > 0`. -/
def api_is_hedged (p : Position) : Bool :=
  decide (0 < p.yes_shares) && decide (0 < p.no_shares)

/-- The shares currently held on a given side of a position. -/
def side_shares (p : Position) : Side → ℚ
  | .yes => p.yes_shares
  | .no => p.no_shares

/-- Modelled from the spec: configuration of the missing
`my_agent.strategy.TradingStrategy` class (spec section 4.2): take-profit
probability, stop-loss probability, and the fraction of the YES position
sold on a hedge. -/
structure TradingStrategy where
  take_profit_threshold : ℚ
  stop_loss_threshold : ℚ
  hedge_sell_percent : ℚ
deriving DecidableEq

/-- Modelled from the spec: `shouldTakeProfit(currentProb)` of the missing
strategy engine (spec section 4.2): `currentProb >= takeProfitThreshold`. -/
def should_take_profit (s : TradingStrategy) (currentProb : ℚ) : Bool :=
  decide (s.take_profit_threshold ≤ currentProb)

/-- Actions recommended by `evaluate` (spec section 4.2). -/
inductive EvalAction where
  | WAIT
  | HEDGE
  | STOP_LOSS
  | HOLD
deriving DecidableEq

/-- String form of an evaluate action, as serialized by the API response. -/
def actionName : EvalAction → String
  | .WAIT => "WAIT"
  | .HEDGE => "HEDGE"
  | .STOP_LOSS => "STOP_LOSS"
  | .HOLD => "HOLD"

/-- Result of `evaluate`: an action plus the unrealized PnL when a position
is held. The observability-only reason string is omitted. -/
structure EvalResult where
  action : EvalAction
  unrealized_pnl : Option ℚ
deriving DecidableEq

/-- Modelled from the spec: `evaluate(currentProb, yesPrice, noPrice)` of the
missing strategy engine (spec section 4.2): pure and read-only; unrealized
PnL is `yesShares*yesPrice + noShares*noPrice - totalInvested +
totalWithdrawn`; decision order (first match wins): no position → WAIT;
`currentProb >= takeProfitThreshold` and not yet hedged → HEDGE;
`currentProb <= stopLossThreshold` → STOP_LOSS; otherwise HOLD. -/
def evaluate (s : TradingStrategy) (p : Position)
    (currentProb yesPrice noPrice : ℚ) : EvalResult :=
  if has_position p = false then
    { action := .WAIT, unrealized_pnl := none }
  else
    let upnl := p.yes_shares * yesPrice + p.no_shares * noPrice
                  - p.total_invested + p.total_withdrawn
    if s.take_profit_threshold ≤ currentProb ∧ api_is_hedged p = false then
      { action := .HEDGE, unrealized_pnl := some upnl }
    else if currentProb ≤ s.stop_loss_threshold then
      { action := .STOP_LOSS, unrealized_pnl := some upnl }
    else
      { action := .HOLD, unrealized_pnl := some upnl }

/-- Result record of `bookProfitAndRebalance` (spec section 4.2). -/
structure HedgeResult where
  yes_sold : ℚ
  yes_price : ℚ
  no_bought : ℚ
  no_price : ℚ
  proceeds : ℚ
  locked_pnl : ℚ
deriving DecidableEq

/-- Modelled from the spec: `bookProfitAndRebalance(yesPrice, noPrice)` of
the missing strategy engine (spec section 4.2): re-validates
`shouldTakeProfit` on the caller-supplied probability (else
`PreconditionFailed`); computes `yesSold = yesShares * hedgeSellPercent`,
sells via `recordSell`, reinvests the entire `proceeds = yesSold*yesPrice`
into `noBought = proceeds / noPrice` NO shares via `openPosition` at
`noPrice`, and reports `lockedPnl = proceeds - yesSold * avgCostYes`. -/
def book_profit_and_rebalance (s : TradingStrategy) (p : Position)
    (currentProb yesPrice noPrice : ℚ) :
    Except PosError (Position × HedgeResult) :=
  if should_take_profit s currentProb = false then
    .error .preconditionFailed
  else
    let yesSold := p.yes_shares * s.hedge_sell_percent
    let avgYes := p.avg_cost_yes
    match record_sell p .yes yesSold yesPrice with
    | .error e => .error e
    | .ok p1 =>
      let proceeds := yesSold * yesPrice
      let noBought := proceeds / noPrice
      match open_position p1 noBought noPrice .no currentProb with
      | .error e => .error e
      | .ok p2 =>
        .ok (p2,
          { yes_sold := yesSold, yes_price := yesPrice,
            no_bought := noBought, no_price := noPrice,
            proceeds := proceeds,
            locked_pnl := proceeds - yesSold * avgYes })

/-- Result record of `cutLossAndExit` (spec section 4.2). -/
structure ExitResult where
  yes_sold : ℚ
  no_sold : ℚ
  total_proceeds : ℚ
  final_pnl : ℚ
deriving DecidableEq

/-- Modelled from the spec: `cutLossAndExit(yesPrice, noPrice)` of the
missing strategy engine (spec section 4.2): sells all remaining YES and NO
shares at the given prices via `recordSell`, reports `totalProceeds` as the
sum of both sale proceeds and `finalPnl = totalWithdrawn - totalInvested`
measured after the sells are recorded. -/
def cut_loss_and_exit (p : Position) (yesPrice noPrice : ℚ) :
    Except PosError (Position × ExitResult) :=
  let ySold := p.yes_shares
  let nSold := p.no_shares
  match record_sell p .yes ySold yesPrice with
  | .error e => .error e
  | .ok p1 =>
    match record_sell p1 .no nSold noPrice with
    | .error e => .error e
    | .ok p2 =>
      .ok (p2,
        { yes_sold := ySold, no_sold := nSold,
          total_proceeds := ySold * yesPrice + nSold * noPrice,
          final_pnl := p2.total_withdrawn - p2.total_invested })

/-- Request body of `POST /bet` (`api.py` lines 102-107): every field is
optional in the JSON payload. -/
structure BetRequest where
  action : Option String
  amount_usd : Option ℚ
  current_prob : Option ℚ
  yes_price : Option ℚ
  no_price : Option ℚ
deriving DecidableEq

/-- Request after defaulting, as used by the rest of `execute_bet`. -/
structure ResolvedRequest where
  action : String
  amount_usd : ℚ
  current_prob : ℚ
  yes_price : ℚ
  no_price : ℚ
deriving DecidableEq

/-- Defaulting of missing `/bet` fields (`api.py` lines 102-107):
`action` defaults to "evaluate", `amount_usd` to 1000, `current_prob` to
0.80, `yes_price` to the resolved `current_prob`, `no_price` to
`1 - current_prob`. -/
def resolve (r : BetRequest) : ResolvedRequest :=
  let prob := r.current_prob.getD 0.8
  { action := r.action.getD "evaluate",
    amount_usd := r.amount_usd.getD 1000,
    current_prob := prob,
    yes_price := r.yes_price.getD prob,
    no_price := r.no_price.getD (1 - prob) }

/-- HTTP response of `execute_bet`, reduced to the fields the claims are
about: status code, the `success` flag, and the reported action string. -/
structure ApiResponse where
  status : Nat
  success : Bool
  action : Option String
deriving DecidableEq

/-- The `POST /bet` handler `execute_bet` (`api.py` lines 77-224), modelled
as a function of the strategy configuration, the current position and the
request. It returns the HTTP response, the position after the call, and the
list of `execute_trade` flags passed to engine calls (each call site in
`api.py` passes the literal `False`). A Python exception (the
`ZeroDivisionError` of `amount_usd / yes_price` when `yes_price = 0`, or an
engine error) is caught by the handler's `except` block and surfaced as an
HTTP 500 response with `success = false`, leaving the position unchanged. -/
def execute_bet (s : TradingStrategy) (p : Position) (req : BetRequest) :
    ApiResponse × Position × List Bool :=
  let r := resolve req
  if r.action = "enter" then
    if r.yes_price = 0 then
      ({ status := 500, success := false, action := none }, p, [])
    else
      let shares := r.amount_usd / r.yes_price
      match open_position p shares r.yes_price .yes r.current_prob with
      | .error _ =>
        ({ status := 500, success := false, action := none }, p, [false])
      | .ok p1 =>
        ({ status := 200, success := true, action := some "ENTRY" }, p1,
          [false])
  else if r.action = "evaluate" then
    let recommendation := evaluate s p r.current_prob r.yes_price r.no_price
    ({ status := 200, success := true,
       action := some (actionName recommendation.action) }, p, [])
  else if r.action = "hedge" then
    if should_take_profit s r.current_prob = false then
      ({ status := 400, success := false, action := none }, p, [])
    else
      match book_profit_and_rebalance s p r.current_prob r.yes_price
          r.no_price with
      | .error _ =>
        ({ status := 500, success := false, action := none }, p, [false])
      | .ok (p1, _) =>
        ({ status := 200, success := true, action := some "HEDGE" }, p1,
          [false])
  else if r.action = "exit" then
    match cut_loss_and_exit p r.yes_price r.no_price with
    | .error _ =>
      ({ status := 500, success := false, action := none }, p, [false])
    | .ok (p1, _) =>
      ({ status := 200, success := true, action := some "STOP_LOSS" }, p1,
        [false])
  else
    ({ status := 400, success := false, action := none }, p, [])

/-- A call sequence element for `open_position` (used to state the
cumulative-investment property over arbitrary entry sequences). -/
structure OpenCall where
  shares : ℚ
  price : ℚ
  side : Side
  entry_prob : ℚ
deriving DecidableEq

/-- Runs a sequence of `open_position` calls, stopping at the first error. -/
def run_opens : Position → List OpenCall → Except PosError Position
  | p, [] => .ok p
  | p, c :: cs =>
    match open_position p c.shares c.price c.side c.entry_prob with
    | .error e => .error e
    | .ok p1 => run_opens p1 cs

/-- Sum of `shares * price` over a sequence of entry calls. -/
def invested_sum (cs : List OpenCall) : ℚ :=
  (cs.map (fun c => c.shares * c.price)).sum

/-- Concrete strategy configuration used by the witnesses, matching the
spec's scenario in section 8: take-profit 0.85, stop-loss 0.20, hedge-sell
fraction 0.5. -/
def s0 : TradingStrategy :=
  { take_profit_threshold := 0.85, stop_loss_threshold := 0.2,
    hedge_sell_percent := 0.5 }

/-- Concrete position used by the witnesses: 1000 YES shares bought at
0.80 (cost 800), the spec's section 8 scenario. -/
def p0 : Position :=
  { yes_shares := 1000, no_shares := 0, total_invested := 800,
    total_withdrawn := 0, avg_cost_yes := 0.8, avg_cost_no := 0,
    entry_prob := some 0.8 }

/-- Position after hedging `p0` at prices 0.86 / 0.14 with `s0`. -/
def p0h : Position :=
  { yes_shares := 500, no_shares := 21500 / 7, total_invested := 1230,
    total_withdrawn := 430, avg_cost_yes := 0.8, avg_cost_no := 0.14,
    entry_prob := some 0.8 }

/-- Hedge result record for hedging `p0` at prices 0.86 / 0.14 with `s0`. -/
def r0h : HedgeResult :=
  { yes_sold := 500, yes_price := 0.86, no_bought := 21500 / 7,
    no_price := 0.14, proceeds := 430, locked_pnl := 30 }

/-- Position after exiting `p0` at prices 0.15 / 0.85. -/
def p0x : Position :=
  { yes_shares := 0, no_shares := 0, total_invested := 800,
    total_withdrawn := 150, avg_cost_yes := 0.8, avg_cost_no := 0,
    entry_prob := some 0.8 }

/-- Exit result record for exiting `p0` at prices 0.15 / 0.85. -/
def r0x : ExitResult :=
  { yes_sold := 1000, no_sold := 0, total_proceeds := 150,
    final_pnl := -650 }

/-- Concrete hedge request below the take-profit threshold of `s0`. -/
def reqHedge : BetRequest :=
  { action := some "hedge", amount_usd := none, current_prob := some 0.5,
    yes_price := some 0.86, no_price := some 0.14 }

/-- Concrete enter request: 1000 USD at YES price 0.80. -/
def reqEnter : BetRequest :=
  { action := some "enter", amount_usd := some 1000,
    current_prob := some 0.8, yes_price := some 0.8, no_price := none }

/-- Concrete entry sequence: 100 YES at 0.80, then 50 NO at 0.50. -/
def c6calls : List OpenCall :=
  [{ shares := 100, price := 4/5, side := .yes, entry_prob := 4/5 },
   { shares := 50, price := 1/2, side := .no, entry_prob := 4/5 }]

/-- Position reached by running `c6calls` from the empty position. -/
def c6q : Position :=
  { yes_shares := 100, no_shares := 50, total_invested := 105,
    total_withdrawn := 0, avg_cost_yes := 4/5, avg_cost_no := 1/2,
    entry_prob := some (4/5) }

/-- Position after the enter request `reqEnter` from the empty position. -/
def p0e : Position :=
  { yes_shares := 1250, no_shares := 0, total_invested := 1000,
    total_withdrawn := 0, avg_cost_yes := 4/5, avg_cost_no := 0,
    entry_prob := some (4/5) }

/-- The request with every field missing. -/
def reqEmpty : BetRequest :=
  { action := none, amount_usd := none, current_prob := none,
    yes_price := none, no_price := none }

/-- Concrete enter request with a zero YES price. -/
def reqZero : BetRequest :=
  { action := some "enter", amount_usd := some 1000,
    current_prob := some 0.8, yes_price := some 0, no_price := none }

/-- A successful `open_position` adds exactly `shares * price` to
`total_invested`, whatever the side. -/
theorem open_position_ok_invested (p : Position) (sh pr : ℚ) (side : Side)
    (ep : ℚ) (q : Position) (h : open_position p sh pr side ep = .ok q) :
    q.total_invested = p.total_invested + sh * pr := by
  simp only [open_position] at h
  split at h
  · cases h
  · cases side <;>
      (simp only [Except.ok.injEq] at h; subst h; simp)

/-- A successful `open_position` on the NO side adds the bought shares to
`no_shares` and leaves `yes_shares` untouched. -/
theorem open_position_ok_no_shares (p : Position) (sh pr ep : ℚ)
    (q : Position) (h : open_position p sh pr .no ep = .ok q) :
    q.no_shares = p.no_shares + sh ∧ q.yes_shares = p.yes_shares := by
  simp only [open_position] at h
  split at h
  · cases h
  · simp only [Except.ok.injEq] at h
    subst h
    simp

/-- A successful `record_sell` on the YES side decreases `yes_shares` by the
sold amount, adds the proceeds to `total_withdrawn`, and leaves the other
fields (NO shares, invested capital, both average costs) unchanged. -/
theorem record_sell_ok_yes (p : Position) (sh pr : ℚ) (q : Position)
    (h : record_sell p .yes sh pr = .ok q) :
    q.yes_shares = p.yes_shares - sh ∧ q.no_shares = p.no_shares ∧
    q.total_withdrawn = p.total_withdrawn + sh * pr ∧
    q.total_invested = p.total_invested ∧
    q.avg_cost_yes = p.avg_cost_yes ∧ q.avg_cost_no = p.avg_cost_no := by
  simp only [record_sell] at h
  split at h
  · simp only [Except.ok.injEq] at h
    subst h
    simp
  · cases h

/-- A successful `record_sell` on the NO side decreases `no_shares` by the
sold amount, adds the proceeds to `total_withdrawn`, and leaves the other
fields unchanged. -/
theorem record_sell_ok_no (p : Position) (sh pr : ℚ) (q : Position)
    (h : record_sell p .no sh pr = .ok q) :
    q.no_shares = p.no_shares - sh ∧ q.yes_shares = p.yes_shares ∧
    q.total_withdrawn = p.total_withdrawn + sh * pr ∧
    q.total_invested = p.total_invested ∧
    q.avg_cost_yes = p.avg_cost_yes ∧ q.avg_cost_no = p.avg_cost_no := by
  simp only [record_sell] at h
  split at h
  · simp only [Except.ok.injEq] at h
    subst h
    simp
  · cases h

/-- Selling all shares of an already-empty position succeeds and changes
nothing: `cut_loss_and_exit` on a position with zero shares of both sides
returns the same position and an all-zero trade summary. -/
theorem cut_loss_and_exit_on_empty (p : Position) (hy : p.yes_shares = 0)
    (hn : p.no_shares = 0) (yp np : ℚ) :
    cut_loss_and_exit p yp np =
      .ok (p, { yes_sold := 0, no_sold := 0, total_proceeds := 0,
                final_pnl := p.total_withdrawn - p.total_invested }) := by
  obtain ⟨ys, ns, ti, tw, ay, an, ep⟩ := p
  simp only at hy hn
  subst hy
  subst hn
  simp [cut_loss_and_exit, record_sell]

/-- C1: for every position with `yesShares > 0`, a successful
`bookProfitAndRebalance(yesPrice, noPrice)` sells exactly
`yesSold = yesShares * hedgeSellPercent` YES shares, yields
`proceeds = yesSold * yesPrice`, buys `noBought = proceeds / noPrice` NO
shares (the entire proceeds are reinvested into the NO side), and reports
`lockedPnl = proceeds - yesSold * avgCostYes`, which equals
`yesSold * (yesPrice - avgCostYes)` exactly. -/
theorem hedge_books_exact_quantities (s : TradingStrategy) (p : Position)
    (currentProb yesPrice noPrice : ℚ) (p2 : Position) (r : HedgeResult)
    (hpos : 0 < p.yes_shares)
    (h : book_profit_and_rebalance s p currentProb yesPrice noPrice =
      .ok (p2, r)) :
    r.yes_sold = p.yes_shares * s.hedge_sell_percent ∧
    r.proceeds = r.yes_sold * yesPrice ∧
    r.no_bought = r.proceeds / noPrice ∧
    p2.yes_shares = p.yes_shares - r.yes_sold ∧
    p2.no_shares = p.no_shares + r.no_bought ∧
    r.locked_pnl = r.proceeds - r.yes_sold * p.avg_cost_yes ∧
    r.locked_pnl = r.yes_sold * (yesPrice - p.avg_cost_yes) := by
  simp only [book_profit_and_rebalance] at h
  split at h
  · cases h
  · cases hsell : record_sell p Side.yes (p.yes_shares * s.hedge_sell_percent)
        yesPrice with
    | error e =>
      rw [hsell] at h
      cases h
    | ok p1 =>
      rw [hsell] at h
      dsimp only at h
      cases hopen : open_position p1
          (p.yes_shares * s.hedge_sell_percent * yesPrice / noPrice) noPrice
          Side.no currentProb with
      | error e =>
        rw [hopen] at h
        cases h
      | ok q =>
        rw [hopen] at h
        simp only [Except.ok.injEq, Prod.mk.injEq] at h
        obtain ⟨hq, hr⟩ := h
        subst hq
        subst hr
        obtain ⟨hy, hn, -, -, -, -⟩ := record_sell_ok_yes _ _ _ _ hsell
        obtain ⟨hno, hyes⟩ := open_position_ok_no_shares _ _ _ _ _ hopen
        refine ⟨rfl, rfl, rfl, ?_, ?_, rfl, by ring⟩
        · rw [hyes, hy]
        · rw [hno, hn]

/-- Witness for C1 on the spec's section 8 scenario: hedging 1000 YES held
at average cost 0.80 with prices 0.86 / 0.14 sells 500 YES, yields 430,
buys 21500/7 NO and locks a PnL of 30. -/
theorem hedge_books_exact_quantities_witness :
    0 < p0.yes_shares ∧
    book_profit_and_rebalance s0 p0 0.86 0.86 0.14 = .ok (p0h, r0h) ∧
    (r0h.yes_sold = p0.yes_shares * s0.hedge_sell_percent ∧
     r0h.proceeds = r0h.yes_sold * 0.86 ∧
     r0h.no_bought = r0h.proceeds / 0.14 ∧
     p0h.yes_shares = p0.yes_shares - r0h.yes_sold ∧
     p0h.no_shares = p0.no_shares + r0h.no_bought ∧
     r0h.locked_pnl = r0h.proceeds - r0h.yes_sold * p0.avg_cost_yes ∧
     r0h.locked_pnl = r0h.yes_sold * (0.86 - p0.avg_cost_yes)) := by
  have hpos : 0 < p0.yes_shares := by norm_num [p0]
  have h : book_profit_and_rebalance s0 p0 0.86 0.86 0.14 = .ok (p0h, r0h) := by
    simp only [book_profit_and_rebalance, record_sell, open_position,
      should_take_profit, s0, p0, p0h, r0h]
    norm_num
  exact ⟨hpos, h,
    hedge_books_exact_quantities s0 p0 0.86 0.86 0.14 p0h r0h hpos h⟩

/-- C2: after a completed `cutLossAndExit(yesPrice, noPrice)` both share
counts are zero, the reported `totalProceeds` is the sum of the YES and NO
sale proceeds, the reported `finalPnl` equals
`totalWithdrawn - totalInvested` as measured after the sells are recorded,
and calling it again on the resulting empty position succeeds as a no-op
(same position back, zero quantities) rather than an error. -/
theorem exit_zeroes_position_and_reports_full_pnl (p : Position)
    (yesPrice noPrice : ℚ) (p2 : Position) (r : ExitResult)
    (h : cut_loss_and_exit p yesPrice noPrice = .ok (p2, r)) :
    p2.yes_shares = 0 ∧ p2.no_shares = 0 ∧
    r.yes_sold = p.yes_shares ∧ r.no_sold = p.no_shares ∧
    r.total_proceeds = r.yes_sold * yesPrice + r.no_sold * noPrice ∧
    r.final_pnl = p2.total_withdrawn - p2.total_invested ∧
    (∀ yp2 np2 : ℚ, cut_loss_and_exit p2 yp2 np2 =
      .ok (p2, { yes_sold := 0, no_sold := 0, total_proceeds := 0,
                 final_pnl := r.final_pnl })) := by
  simp only [cut_loss_and_exit, record_sell, le_refl, if_true] at h
  simp only [Except.ok.injEq, Prod.mk.injEq] at h
  obtain ⟨hq, hr⟩ := h
  subst hq
  subst hr
  refine ⟨by simp, by simp, rfl, rfl, rfl, rfl, ?_⟩
  intro yp2 np2
  exact cut_loss_and_exit_on_empty _ (by simp) (by simp) yp2 np2

/-- Witness for C2 on the spec's section 8 scenario: exiting 1000 YES held
at cost 800 at prices 0.15 / 0.85 recovers 150 for a final PnL of -650,
leaves both sides at zero, and a second exit is a no-op. -/
theorem exit_zeroes_position_witness :
    cut_loss_and_exit p0 0.15 0.85 = .ok (p0x, r0x) ∧
    (p0x.yes_shares = 0 ∧ p0x.no_shares = 0 ∧
     r0x.yes_sold = p0.yes_shares ∧ r0x.no_sold = p0.no_shares ∧
     r0x.total_proceeds = r0x.yes_sold * 0.15 + r0x.no_sold * 0.85 ∧
     r0x.final_pnl = p0x.total_withdrawn - p0x.total_invested ∧
     cut_loss_and_exit p0x 0.3 0.7 =
       .ok (p0x, { yes_sold := 0, no_sold := 0, total_proceeds := 0,
                   final_pnl := r0x.final_pnl })) := by
  have h : cut_loss_and_exit p0 0.15 0.85 = .ok (p0x, r0x) := by
    simp only [cut_loss_and_exit, record_sell, p0, p0x, r0x]
    norm_num
  have hc := exit_zeroes_position_and_reports_full_pnl p0 0.15 0.85 p0x r0x h
  exact ⟨h, hc.1, hc.2.1, hc.2.2.1, hc.2.2.2.1, hc.2.2.2.2.1,
    hc.2.2.2.2.2.1, hc.2.2.2.2.2.2 0.3 0.7⟩

/-- C3: `evaluate` returns `WAIT` if and only if no position is held
(`hasPosition() == false`); when a position is held it never returns `WAIT`
and follows the first-match threshold order: HEDGE when
`currentProb >= takeProfitThreshold` and not yet hedged, else STOP_LOSS
when `currentProb <= stopLossThreshold`, else HOLD. -/
theorem evaluate_WAIT_iff_no_position (s : TradingStrategy) (p : Position)
    (currentProb yesPrice noPrice : ℚ) :
    ((evaluate s p currentProb yesPrice noPrice).action = .WAIT ↔
      has_position p = false) ∧
    (has_position p = true →
      (evaluate s p currentProb yesPrice noPrice).action ≠ .WAIT ∧
      (evaluate s p currentProb yesPrice noPrice).action =
        (if s.take_profit_threshold ≤ currentProb ∧ api_is_hedged p = false
          then .HEDGE
          else if currentProb ≤ s.stop_loss_threshold then .STOP_LOSS
          else .HOLD)) := by
  cases hpb : has_position p with
  | false =>
    simp [evaluate, hpb]
  | true =>
    simp only [evaluate, hpb, Bool.true_eq_false, if_false]
    refine ⟨?_, fun _ => ⟨?_, ?_⟩⟩
    · constructor
      · intro hA
        exfalso
        revert hA
        split
        · simp
        · split <;> simp
      · intro hfalse
        cases hfalse
    · split
      · simp
      · split <;> simp
    · split
      · simp
      · split <;> simp

/-- Witness for C3: on the empty position `evaluate` returns WAIT; on the
held position `p0` at probability 0.86 it does not return WAIT and follows
the threshold order. -/
theorem evaluate_WAIT_witness :
    ((evaluate s0 Position.empty 0.5 0.5 0.5).action = .WAIT ↔
      has_position Position.empty = false) ∧
    (has_position p0 = true ∧
     (evaluate s0 p0 0.86 0.86 0.14).action ≠ .WAIT ∧
     (evaluate s0 p0 0.86 0.86 0.14).action =
       (if s0.take_profit_threshold ≤ (0.86 : ℚ) ∧ api_is_hedged p0 = false
         then .HEDGE
         else if (0.86 : ℚ) ≤ s0.stop_loss_threshold then .STOP_LOSS
         else .HOLD)) := by
  have hp : has_position p0 = true := by
    simp [has_position, p0]
  have h2 := (evaluate_WAIT_iff_no_position s0 p0 0.86 0.86 0.14).2 hp
  exact ⟨(evaluate_WAIT_iff_no_position s0 Position.empty 0.5 0.5 0.5).1,
    hp, h2.1, h2.2⟩

/-- C4: whenever `shouldTakeProfit(currentProb)` is false — exactly when
`currentProb < takeProfitThreshold` — `bookProfitAndRebalance` fails with
`PreconditionFailed` (leaving the position unchanged in this pure
embedding), and the API hedge action rejects the request with HTTP 400 and
`success = false` before any mutation, returning the position unchanged
with no trade call made. -/
theorem hedge_rejected_without_take_profit (s : TradingStrategy)
    (currentProb : ℚ)
    (hfalse : should_take_profit s currentProb = false) :
    currentProb < s.take_profit_threshold ∧
    (∀ (p : Position) (yesPrice noPrice : ℚ),
      book_profit_and_rebalance s p currentProb yesPrice noPrice =
        .error .preconditionFailed) ∧
    (∀ (p : Position) (req : BetRequest),
      (resolve req).action = "hedge" →
      (resolve req).current_prob = currentProb →
      execute_bet s p req =
        ({ status := 400, success := false, action := none }, p, [])) := by
  refine ⟨?_, ?_, ?_⟩
  · simp only [should_take_profit, decide_eq_false_iff_not, not_le] at hfalse
    exact hfalse
  · intro p yesPrice noPrice
    simp [book_profit_and_rebalance, hfalse]
  · intro p req hact hprob
    simp [execute_bet, hact, hprob, hfalse]

/-- Witness for C4: at probability 0.5 with take-profit threshold 0.85 the
engine returns `PreconditionFailed` and the API returns HTTP 400 with the
position unchanged. -/
theorem hedge_rejected_witness :
    should_take_profit s0 0.5 = false ∧
    ((0.5 : ℚ) < s0.take_profit_threshold ∧
     book_profit_and_rebalance s0 p0 0.5 0.86 0.14 =
       .error .preconditionFailed ∧
     ((resolve reqHedge).action = "hedge" ∧
      (resolve reqHedge).current_prob = 0.5 ∧
      execute_bet s0 p0 reqHedge =
        ({ status := 400, success := false, action := none }, p0, []))) := by
  have hfalse : should_take_profit s0 0.5 = false := by
    simp [should_take_profit, s0]
    norm_num
  have hact : (resolve reqHedge).action = "hedge" := rfl
  have hprob : (resolve reqHedge).current_prob = 0.5 := rfl
  have hc := hedge_rejected_without_take_profit s0 0.5 hfalse
  exact ⟨hfalse, hc.1, hc.2.1 p0 0.86 0.14, hact, hprob,
    hc.2.2 p0 reqHedge hact hprob⟩

/-- C5: in every position state the `is_hedged` predicate reported by the
API holds exactly when both `yesShares > 0` and `noShares > 0`; in
particular it is false whenever either side's share count is zero. -/
theorem is_hedged_iff_both_sides_positive (p : Position) :
    (api_is_hedged p = true ↔ 0 < p.yes_shares ∧ 0 < p.no_shares) ∧
    (p.yes_shares = 0 ∨ p.no_shares = 0 → api_is_hedged p = false) := by
  constructor
  · simp [api_is_hedged]
  · rintro (h | h) <;> simp [api_is_hedged, h]

/-- Witness for C5: the unhedged position `p0` (no NO shares) reports
`is_hedged = false`. -/
theorem is_hedged_witness :
    (p0.yes_shares = 0 ∨ p0.no_shares = 0) ∧ api_is_hedged p0 = false := by
  have h : p0.yes_shares = 0 ∨ p0.no_shares = 0 := Or.inr rfl
  exact ⟨h, (is_hedged_iff_both_sides_positive p0).2 h⟩

/-- C6: over every successful sequence of `openPosition` calls,
`totalInvested` grows by exactly the sum of `shares * price` over the
calls, with no drift; in particular a successful API enter of `amount_usd`
at `yes_price` (buying `amount_usd / yes_price` shares at that price)
increases `totalInvested` by exactly `amount_usd`. -/
theorem total_invested_is_sum_of_entries :
    (∀ (p : Position) (cs : List OpenCall) (q : Position),
      run_opens p cs = .ok q →
      q.total_invested = p.total_invested + invested_sum cs) ∧
    (∀ (s : TradingStrategy) (p : Position) (req : BetRequest)
      (resp : ApiResponse) (p1 : Position) (flags : List Bool),
      (resolve req).action = "enter" → resp.success = true →
      execute_bet s p req = (resp, p1, flags) →
      p1.total_invested = p.total_invested + (resolve req).amount_usd) := by
  constructor
  · intro p cs
    induction cs generalizing p with
    | nil =>
      intro q h
      simp only [run_opens, Except.ok.injEq] at h
      subst h
      simp [invested_sum]
    | cons c cs ih =>
      intro q h
      simp only [run_opens] at h
      cases ho : open_position p c.shares c.price c.side c.entry_prob with
      | error e =>
        rw [ho] at h
        cases h
      | ok p1 =>
        rw [ho] at h
        have h1 := ih p1 q h
        have h2 := open_position_ok_invested _ _ _ _ _ _ ho
        rw [h1, h2]
        simp only [invested_sum, List.map_cons, List.sum_cons]
        ring
  · intro s p req resp p1 flags hact hsucc h
    simp only [execute_bet, hact, if_pos] at h
    split at h
    · simp only [Prod.mk.injEq] at h
      obtain ⟨hresp, -, -⟩ := h
      rw [← hresp] at hsucc
      cases hsucc
    · rename_i hzero
      cases ho : open_position p
          ((resolve req).amount_usd / (resolve req).yes_price)
          (resolve req).yes_price Side.yes (resolve req).current_prob with
      | error e =>
        rw [ho] at h
        simp only [Prod.mk.injEq] at h
        obtain ⟨hresp, -, -⟩ := h
        rw [← hresp] at hsucc
        cases hsucc
      | ok pn =>
        rw [ho] at h
        simp only [Prod.mk.injEq] at h
        obtain ⟨-, hp1, -⟩ := h
        subst hp1
        have h2 := open_position_ok_invested _ _ _ _ _ _ ho
        rw [h2, div_mul_cancel₀ _ hzero]

/-- Witness for C6: running two concrete entries (100 at 0.80, 50 at 0.50)
from the empty position invests exactly 105, and the concrete API enter of
1000 USD at price 0.80 invests exactly 1000. -/
theorem total_invested_sum_witness :
    (run_opens Position.empty c6calls = .ok c6q ∧
     c6q.total_invested = Position.empty.total_invested +
       invested_sum c6calls) ∧
    ((resolve reqEnter).action = "enter" ∧
     execute_bet s0 Position.empty reqEnter =
       ({ status := 200, success := true, action := some "ENTRY" }, p0e,
         [false]) ∧
     p0e.total_invested = Position.empty.total_invested +
       (resolve reqEnter).amount_usd) := by
  have h1 : run_opens Position.empty c6calls = .ok c6q := by
    simp only [run_opens, open_position, Position.empty, c6calls, c6q]
    norm_num
  have hact : (resolve reqEnter).action = "enter" := rfl
  have h2 : execute_bet s0 Position.empty reqEnter =
      ({ status := 200, success := true, action := some "ENTRY" }, p0e,
        [false]) := by
    simp only [execute_bet, resolve, reqEnter, open_position, s0,
      Position.empty, p0e]
    norm_num
  refine ⟨⟨h1, (total_invested_is_sum_of_entries).1 Position.empty c6calls
    c6q h1⟩, hact, h2, (total_invested_is_sum_of_entries).2 s0
    Position.empty reqEnter _ p0e [false] hact rfl h2⟩

/-- C7: selling more shares than held on a side fails with
`InsufficientShares`; in this pure embedding the operation returns only the
error, so every `Position` field of the caller's state is unchanged. -/
theorem oversell_fails_insufficient_shares (p : Position) (side : Side)
    (sh pr : ℚ) (h : side_shares p side < sh) :
    record_sell p side sh pr = .error .insufficientShares := by
  cases side <;>
    (simp only [side_shares] at h; simp [record_sell, not_le.mpr h])

/-- Witness for C7: selling 1 NO share from `p0`, which holds none, fails
with `InsufficientShares`. -/
theorem oversell_fails_witness :
    side_shares p0 .no < 1 ∧
    record_sell p0 .no 1 0.5 = .error .insufficientShares := by
  have h : side_shares p0 .no < 1 := by
    simp [side_shares, p0]
  exact ⟨h, oversell_fails_insufficient_shares p0 .no 1 0.5 h⟩

/-- C8: every engine call made by the API passes the trade-execution flag
as `False`: for every request and state, every flag recorded on the call
path of `execute_bet` is `false`, so this configuration never submits a
real order. -/
theorem api_never_executes_trades (s : TradingStrategy) (p : Position)
    (req : BetRequest) (b : Bool)
    (hb : b ∈ (execute_bet s p req).2.2) : b = false := by
  simp only [execute_bet] at hb
  repeat' split at hb
  all_goals simp_all

/-- Witness for C8: the concrete enter request records exactly one
execution flag and it is `false`. -/
theorem api_never_executes_witness :
    false ∈ (execute_bet s0 Position.empty reqEnter).2.2 ∧ false = false := by
  have hmem : false ∈ (execute_bet s0 Position.empty reqEnter).2.2 := by
    have h2 : execute_bet s0 Position.empty reqEnter =
        ({ status := 200, success := true, action := some "ENTRY" }, p0e,
          [false]) := by
      simp only [execute_bet, resolve, reqEnter, open_position, s0,
        Position.empty, p0e]
      norm_num
    rw [h2]
    simp
  exact ⟨hmem, api_never_executes_trades s0 Position.empty reqEnter false hmem⟩

/-- C9: missing `/bet` fields are filled with fixed defaults before any
operation runs: `action` defaults to "evaluate", `amount_usd` to 1000,
`current_prob` to 0.80, `yes_price` to the resolved `current_prob`, and
`no_price` to `1 - current_prob`, so by default the supplied YES and NO
prices sum exactly to 1. -/
theorem bet_request_defaults (req : BetRequest) :
    (req.action = none → (resolve req).action = "evaluate") ∧
    (req.amount_usd = none → (resolve req).amount_usd = 1000) ∧
    (req.current_prob = none → (resolve req).current_prob = 0.8) ∧
    (req.yes_price = none →
      (resolve req).yes_price = (resolve req).current_prob) ∧
    (req.no_price = none →
      (resolve req).no_price = 1 - (resolve req).current_prob) ∧
    (req.yes_price = none → req.no_price = none →
      (resolve req).yes_price + (resolve req).no_price = 1) := by
  refine ⟨fun h => by simp [resolve, h], fun h => by simp [resolve, h],
    fun h => by simp [resolve, h], fun h => by simp [resolve, h],
    fun h => by simp [resolve, h], fun h1 h2 => ?_⟩
  simp [resolve, h1, h2]

/-- Witness for C9: the request with every field missing resolves to
action "evaluate", amount 1000, probability 0.8, YES price 0.8 and NO
price 0.2, which sum to 1. -/
theorem bet_request_defaults_witness :
    reqEmpty.action = none ∧
    ((resolve reqEmpty).action = "evaluate" ∧
     (resolve reqEmpty).amount_usd = 1000 ∧
     (resolve reqEmpty).current_prob = 0.8 ∧
     (resolve reqEmpty).yes_price = (resolve reqEmpty).current_prob ∧
     (resolve reqEmpty).no_price = 1 - (resolve reqEmpty).current_prob ∧
     (resolve reqEmpty).yes_price + (resolve reqEmpty).no_price = 1) := by
  have hc := bet_request_defaults reqEmpty
  exact ⟨rfl, hc.1 rfl, hc.2.1 rfl, hc.2.2.1 rfl, hc.2.2.2.1 rfl,
    hc.2.2.2.2.1 rfl, hc.2.2.2.2.2 rfl rfl⟩

/-- C10: an enter request with `yes_price = 0` makes the division
`amount_usd / yes_price` raise before `openPosition` is ever called; the
exception is caught and surfaced as HTTP 500 with `success = false`, the
position is unchanged, and no engine call is recorded. -/
theorem enter_zero_price_returns_500 (s : TradingStrategy) (p : Position)
    (req : BetRequest) (hact : (resolve req).action = "enter")
    (hzero : (resolve req).yes_price = 0) :
    execute_bet s p req =
      ({ status := 500, success := false, action := none }, p, []) := by
  simp [execute_bet, hact, hzero]

/-- Witness for C10: the concrete enter request with YES price 0 yields
HTTP 500, `success = false`, the unchanged position and no engine call. -/
theorem enter_zero_price_witness :
    (resolve reqZero).action = "enter" ∧ (resolve reqZero).yes_price = 0 ∧
    execute_bet s0 p0 reqZero =
      ({ status := 500, success := false, action := none }, p0, []) := by
  exact ⟨rfl, rfl, enter_zero_price_returns_500 s0 p0 reqZero rfl rfl⟩

end PolyAgent
